import Mathlib

/-!
Shallow embedding of `src/producer-consumer.c`: a single-shot inter-process
message hand-off, selectable between a Unix-domain-socket transport and a
shared-memory mailbox guarded by three POSIX named semaphores
(`/mutex_sem`, `/empty_sem`, `/full_sem`).
-/

namespace ProducerConsumer

/-- `MAX_MESSAGE_LENGTH` (line 13): the size of every message buffer. -/
def MAX_MESSAGE_LENGTH : Nat := 1024

/-- The C `Queue` struct (lines 17-20): a single-slot mailbox holding a
message buffer and an empty flag. `message` lists the characters stored
before the terminating NUL byte. -/
structure Queue where
  message : List Char
  is_empty : Int
deriving Repr, DecidableEq

/-- The C `Arguments` struct (lines 23-31). `message = none` models a
missing `-m` flag, `some s` a present one (`s` may be empty);
`queue_depth` is the `atoi` result, left at 0 when `-q` is absent. -/
structure Arguments where
  is_producer : Bool
  is_consumer : Bool
  message : Option (List Char)
  queue_depth : Int
  use_socket : Bool
  use_shared_memory : Bool
  enable_echo : Bool
deriving Repr, DecidableEq

/-- What `main` does with a parsed argument record: either some validation
check fails (usage/error message and `exit(1)`, before any transfer), or
exactly one of the four transfer routines runs. -/
inductive MainAction where
  | usage_exit
  | run_producer_socket
  | run_consumer_socket
  | run_producer_shm
  | run_consumer_shm
deriving Repr, DecidableEq

/-- The validation performed by `parse_arguments` (lines 109-117) followed
by `main`'s own checks and dispatch (lines 44-73), in program order; the
first failing check prints a diagnostic and exits with status 1. -/
def main_dispatch (a : Arguments) : MainAction :=
  if a.message.isNone then MainAction.usage_exit
  else if a.queue_depth ≤ 0 then MainAction.usage_exit
  else if !(a.is_producer != a.is_consumer) then MainAction.usage_exit
  else if a.use_socket && a.use_shared_memory then MainAction.usage_exit
  else if !a.use_socket && !a.use_shared_memory then MainAction.usage_exit
  else if a.use_socket then
    if a.is_producer then MainAction.run_producer_socket
    else MainAction.run_consumer_socket
  else
    if a.is_producer then MainAction.run_producer_shm
    else MainAction.run_consumer_shm

/-- Bytes written into the destination array by C `strcpy` (lines 248 and
306): every source character plus the terminating NUL; `strcpy` never
truncates. -/
def strcpyBytesWritten (src : List Char) : Nat := src.length + 1

/-- The character content stored by C `strcpy`: the entire source string,
regardless of the destination's capacity. -/
def strcpyStored (src : List Char) : List Char := src

/-- `send(sock, args->message, strlen(args->message), 0)` (line 142): the
socket producer hands the full message to the stream, untruncated. -/
def producer_socket_bytesSent (msg : List Char) : Nat := msg.length

/-- `recv(client_sock, buffer, sizeof(buffer), 0)` (line 195): at most
`MAX_MESSAGE_LENGTH` bytes of what was sent are delivered into `buffer`. -/
def consumer_socket_recvCount (sent : Nat) : Nat := min sent MAX_MESSAGE_LENGTH

/-- `buffer[received] = 0` (line 200): the index at which the socket
consumer writes the terminating NUL into its 1024-byte local `buffer`. -/
def consumer_socket_nullIndex (received : Nat) : Nat := received

/-- The named-resource state visible to both processes: the SysV shared
memory segment keyed by `ftok("/tmp", 'Q')` and the three POSIX named
semaphores. `none` means the resource does not currently exist. -/
structure SysState where
  shm : Option Queue
  mutex_sem : Option Nat
  empty_sem : Option Nat
  full_sem : Option Nat
deriving Repr, DecidableEq

/-- The state before any run: none of the four named resources exists. -/
def initialState : SysState :=
  { shm := none, mutex_sem := none, empty_sem := none, full_sem := none }

/-- `sem_open(name, O_CREAT, 0666, value)` (lines 239-241): atomically
opens the existing semaphore with its count unchanged (the `value`
argument is ignored), or creates it with count `value` when absent. -/
def sem_open_create (s : Option Nat) (value : Nat) : Nat :=
  match s with
  | some c => c
  | none => value

/-- `sem_open(name, 0)` (lines 297-299): opens the existing semaphore with
its count unchanged; `none` models the `SEM_FAILED` return when the named
semaphore does not exist. -/
def sem_open_plain (s : Option Nat) : Option Nat := s

/-- `sem_wait` under the sequential (one running process) semantics:
decrement a positive count; `none` means the count is 0 and the caller
suspends indefinitely (there is no timeout in the program). -/
def sem_wait (c : Nat) : Option Nat := if c = 0 then none else some (c - 1)

/-- Outcome of one single-shot run. `ok` carries the named-resource state
at a status-0 exit; `exit1` a checked failure (`perror` then `exit(1)`);
`blocked` an indefinite suspension inside `sem_wait`; `crash` undefined
behavior from using a `SEM_FAILED` handle as a semaphore. -/
inductive RunResult where
  | ok (st : SysState)
  | exit1 (st : SysState)
  | blocked (st : SysState)
  | crash (st : SysState)
deriving Repr, DecidableEq

/-- `producer_shared_memory` (lines 211-266) run alone against resource
state `st`: create-if-absent the segment (`shmget` with `IPC_CREAT`) and
the three semaphores (`sem_open` with `O_CREAT`), wait on `empty` then
`mutex`, `strcpy` the message into the mailbox and clear its empty flag,
post `mutex` then `full`, detach and close. -/
def producer_shared_memory (msg : List Char) (depth : Nat) (st : SysState) :
    RunResult :=
  let q0 : Queue := st.shm.getD { message := [], is_empty := 0 }
  let mc := sem_open_create st.mutex_sem 1
  let ec := sem_open_create st.empty_sem depth
  let fc := sem_open_create st.full_sem 0
  match sem_wait ec with
  | none => RunResult.blocked
      { shm := some q0
        mutex_sem := some mc
        empty_sem := some ec
        full_sem := some fc }
  | some ec1 =>
    match sem_wait mc with
    | none => RunResult.blocked
        { shm := some q0
          mutex_sem := some mc
          empty_sem := some ec1
          full_sem := some fc }
    | some mc1 =>
      RunResult.ok
        { shm := some { message := strcpyStored msg, is_empty := 0 }
          mutex_sem := some (mc1 + 1)
          empty_sem := some ec1
          full_sem := some (fc + 1) }

/-- `consumer_shared_memory` (lines 268-330) run alone against resource
state `st`: `shmget` without `IPC_CREAT` (checked, `exit(1)` when the
segment is absent), then three `sem_open(name, 0)` calls whose results are
NOT checked (`SEM_FAILED` flows into the later `sem_wait`/`sem_post`,
which is undefined behavior), wait on `full` then `mutex`, `strcpy` the
mailbox message into a local buffer and set the empty flag, post `mutex`
then `empty`, detach, close, and finally remove the segment
(`shmctl IPC_RMID`) and unlink all three semaphores. The second component
is the local buffer the run obtained, when the read happened. -/
def consumer_shared_memory (st : SysState) : RunResult × Option (List Char) :=
  match st.shm with
  | none => (RunResult.exit1 st, none)
  | some q =>
    let mh := sem_open_plain st.mutex_sem
    let eh := sem_open_plain st.empty_sem
    let fh := sem_open_plain st.full_sem
    match fh with
    | none => (RunResult.crash st, none)
    | some fc =>
      match sem_wait fc with
      | none => (RunResult.blocked { st with full_sem := some fc }, none)
      | some fc1 =>
        match mh with
        | none => (RunResult.crash { st with full_sem := some fc1 }, none)
        | some mc =>
          match sem_wait mc with
          | none =>
            (RunResult.blocked { st with full_sem := some fc1 }, none)
          | some mc1 =>
            let buffer := strcpyStored q.message
            match eh with
            | none =>
              (RunResult.crash
                { st with
                  shm := some { q with is_empty := 1 }
                  mutex_sem := some (mc1 + 1)
                  full_sem := some fc1 },
               some buffer)
            | some _ =>
              (RunResult.ok
                { shm := none
                  mutex_sem := none
                  empty_sem := none
                  full_sem := none },
               some buffer)

/-- The three named semaphores. -/
inductive SemName where
  | mutex
  | empty
  | full
deriving Repr, DecidableEq

/-- One observable step of a shared-memory transfer routine. -/
inductive Event where
  | wait (s : SemName)
  | post (s : SemName)
  | mailboxWrite
  | mailboxFlagWrite
  | mailboxRead
  | echo
  | shmdt
  | closeSem (s : SemName)
  | shmRmid
  | unlinkSem (s : SemName)
deriving Repr, DecidableEq

/-- The statement sequence of `producer_shared_memory` after setup
(lines 243-265), as the events it performs in order: `sem_wait(empty)`,
`sem_wait(mutex)`, `strcpy` into the mailbox, `is_empty = 0`, the optional
echo, `sem_post(mutex)`, `sem_post(full)`, `shmdt`, three `sem_close`. -/
def producerEvents (echo : Bool) : List Event :=
  [Event.wait SemName.empty, Event.wait SemName.mutex,
   Event.mailboxWrite, Event.mailboxFlagWrite] ++
  (if echo then [Event.echo] else []) ++
  [Event.post SemName.mutex, Event.post SemName.full, Event.shmdt,
   Event.closeSem SemName.mutex, Event.closeSem SemName.empty,
   Event.closeSem SemName.full]

/-- The statement sequence of `consumer_shared_memory` after setup
(lines 301-329): `sem_wait(full)`, `sem_wait(mutex)`, `strcpy` out of the
mailbox, `is_empty = 1`, the optional echo, `sem_post(mutex)`,
`sem_post(empty)`, `shmdt`, three `sem_close`, `shmctl(IPC_RMID)`, three
`sem_unlink`. -/
def consumerEvents (echo : Bool) : List Event :=
  [Event.wait SemName.full, Event.wait SemName.mutex,
   Event.mailboxRead, Event.mailboxFlagWrite] ++
  (if echo then [Event.echo] else []) ++
  [Event.post SemName.mutex, Event.post SemName.empty, Event.shmdt,
   Event.closeSem SemName.mutex, Event.closeSem SemName.empty,
   Event.closeSem SemName.full, Event.shmRmid,
   Event.unlinkSem SemName.mutex, Event.unlinkSem SemName.empty,
   Event.unlinkSem SemName.full]

/-- Events that touch the mailbox record (message buffer or empty flag). -/
def mailboxAccess : Event → Bool
  | Event.mailboxWrite => true
  | Event.mailboxFlagWrite => true
  | Event.mailboxRead => true
  | _ => false

/-- Strict mutex discipline over an event sequence: exactly one acquire
and exactly one release of `mutex`, every mailbox access strictly between
them, and the `mutex` release strictly before the release of
`finalSem`. -/
@[reducible]
def mutexDiscipline (evs : List Event) (finalSem : SemName) : Prop :=
  evs.count (Event.wait SemName.mutex) = 1 ∧
  evs.count (Event.post SemName.mutex) = 1 ∧
  (∀ i : Fin evs.length, mailboxAccess (evs.get i) = true →
      evs.indexOf (Event.wait SemName.mutex) < i.val ∧
      i.val < evs.indexOf (Event.post SemName.mutex)) ∧
  evs.indexOf (Event.post SemName.mutex) < evs.indexOf (Event.post finalSem)

/-- C1: for the shared-memory transport, a consumer invocation run after
exactly one producer invocation from a fresh system (same queue depth, no
other runs in between) reads back byte-for-byte the exact message the
producer wrote into the mailbox, for every message that fits the mailbox
buffer and every positive queue depth. -/
theorem C1_roundtrip (msg : List Char) (depth : Nat) (hd : 1 ≤ depth)
    (_hfit : msg.length + 1 ≤ MAX_MESSAGE_LENGTH) :
    ∃ st1, producer_shared_memory msg depth initialState = RunResult.ok st1 ∧
      (consumer_shared_memory st1).2 = some msg ∧
      (consumer_shared_memory st1).1 = RunResult.ok initialState := by
  cases depth with
  | zero => exact absurd hd (by decide)
  | succ d =>
    exact ⟨{ shm := some { message := msg, is_empty := 0 }
             mutex_sem := some 1
             empty_sem := some d
             full_sem := some 1 },
           rfl, rfl, rfl⟩

/-- C1 witness: the round trip at message "hi" and queue depth 1. -/
theorem C1_roundtrip_witness :
    ∃ st1, producer_shared_memory ['h', 'i'] 1 initialState =
        RunResult.ok st1 ∧
      (consumer_shared_memory st1).2 = some ['h', 'i'] ∧
      (consumer_shared_memory st1).1 = RunResult.ok initialState :=
  C1_roundtrip ['h', 'i'] 1 (by decide) (by decide)

/-- C2: in both shared-memory transfer routines, and whether or not echo
is enabled, the mutex is acquired exactly once and released exactly once,
every mailbox access (message buffer and empty flag) lies strictly between
that acquire and that release, and the mutex release precedes the release
of `full` (producer) respectively `empty` (consumer). -/
theorem C2_mutex_discipline :
    ∀ echo : Bool,
      mutexDiscipline (producerEvents echo) SemName.full ∧
      mutexDiscipline (consumerEvents echo) SemName.empty := by
  decide

/-- C3: semaphore counts are set only at creation: `sem_open` with
`O_CREAT` keeps the count of an already-existing semaphore (the initial
value argument is ignored) and initializes only a newly created one; the
consumer's plain `sem_open` never changes a count; consequently a producer
run against already-existing semaphores leaves the counts determined by
their old values (mutex `m` stays `m`, empty `e` becomes `e - 1`, full `f`
becomes `f + 1`), independent of the configured queue depth. -/
theorem C3_no_reinit :
    (∀ c v, sem_open_create (some c) v = c) ∧
    (∀ v, sem_open_create none v = v) ∧
    (∀ s, sem_open_plain s = s) ∧
    (∀ (msg : List Char) (depth : Nat) (st : SysState) (m e f : Nat),
      st.mutex_sem = some m → st.empty_sem = some e → st.full_sem = some f →
      1 ≤ m → 1 ≤ e →
      producer_shared_memory msg depth st =
        RunResult.ok
          { shm := some { message := msg, is_empty := 0 }
            mutex_sem := some m
            empty_sem := some (e - 1)
            full_sem := some (f + 1) }) := by
  refine ⟨fun c v => rfl, fun v => rfl, fun s => rfl, ?_⟩
  intro msg depth st m e f hm he hf hm1 he1
  cases m with
  | zero => exact absurd hm1 (by decide)
  | succ m' =>
    cases e with
    | zero => exact absurd he1 (by decide)
    | succ e' =>
      simp [producer_shared_memory, sem_open_create, sem_wait, strcpyStored,
        hm, he, hf]

/-- C3 witness: a producer run with queue depth 7 against semaphores that
already exist with counts (1, 5, 0) ends with counts (1, 4, 1): the old
counts, not the depth, govern the result. -/
theorem C3_no_reinit_witness :
    producer_shared_memory ['x'] 7
        { shm := some { message := [], is_empty := 1 }
          mutex_sem := some 1
          empty_sem := some 5
          full_sem := some 0 } =
      RunResult.ok
        { shm := some { message := ['x'], is_empty := 0 }
          mutex_sem := some 1
          empty_sem := some 4
          full_sem := some 1 } :=
  C3_no_reinit.2.2.2 ['x'] 7 _ 1 5 0 rfl rfl rfl (by decide) (by decide)

/-- C4: the consumer's teardown is terminal and total: its last four
events (after the transfer) are `shmctl(IPC_RMID)` and the three
`sem_unlink` calls; every consumer run that reaches a status-0 exit leaves
none of the four named resources in existence; and a subsequent producer
run against that empty state re-creates them from scratch with fresh
counts (mutex 1, empty depth - 1 after its wait, full 1). -/
theorem C4_teardown :
    (∀ echo : Bool,
      (consumerEvents echo).drop ((consumerEvents echo).length - 4) =
        [Event.shmRmid, Event.unlinkSem SemName.mutex,
         Event.unlinkSem SemName.empty, Event.unlinkSem SemName.full]) ∧
    (∀ st st' buf, consumer_shared_memory st = (RunResult.ok st', buf) →
      st'.shm = none ∧ st'.mutex_sem = none ∧ st'.empty_sem = none ∧
        st'.full_sem = none) ∧
    (∀ (msg : List Char) (depth : Nat), 1 ≤ depth →
      producer_shared_memory msg depth initialState =
        RunResult.ok
          { shm := some { message := msg, is_empty := 0 }
            mutex_sem := some 1
            empty_sem := some (depth - 1)
            full_sem := some 1 }) := by
  refine ⟨by decide, ?_, ?_⟩
  · intro st st' buf h
    rcases st with ⟨shm, ms, es, fs⟩
    cases shm with
    | none => simp [consumer_shared_memory] at h
    | some q =>
      cases fs with
      | none => simp [consumer_shared_memory, sem_open_plain] at h
      | some fc =>
        cases fc with
        | zero => simp [consumer_shared_memory, sem_open_plain, sem_wait] at h
        | succ fc' =>
          cases ms with
          | none =>
            simp [consumer_shared_memory, sem_open_plain, sem_wait] at h
          | some mc =>
            cases mc with
            | zero =>
              simp [consumer_shared_memory, sem_open_plain, sem_wait] at h
            | succ mc' =>
              cases es with
              | none =>
                simp [consumer_shared_memory, sem_open_plain, sem_wait] at h
              | some ec =>
                cases h
                exact ⟨rfl, rfl, rfl, rfl⟩
  · intro msg depth hd
    cases depth with
    | zero => exact absurd hd (by decide)
    | succ d => rfl

/-- C4 witness: the fresh-creation part at message "a" and depth 2, and
the teardown part at a concrete post-producer state, whose successful
consumer run ends with no resource existing. -/
theorem C4_teardown_witness :
    (producer_shared_memory ['a'] 2 initialState =
      RunResult.ok
        { shm := some { message := ['a'], is_empty := 0 }
          mutex_sem := some 1
          empty_sem := some 1
          full_sem := some 1 }) ∧
    (initialState.shm = none ∧ initialState.mutex_sem = none ∧
      initialState.empty_sem = none ∧ initialState.full_sem = none) :=
  ⟨C4_teardown.2.2 ['a'] 2 (by decide),
   C4_teardown.2.1
     { shm := some { message := ['a'], is_empty := 0 }
       mutex_sem := some 1
       empty_sem := some 1
       full_sem := some 1 }
     initialState (some ['a']) rfl⟩

/-- C5 counterexample: the consumer role does not use create-if-absent
semantics: run first, on a fresh system with no resources, it fails at
`shmget` (no `IPC_CREAT`) with a checked `exit(1)` and creates nothing,
refuting the claim that whichever process runs first creates the segment
and semaphores. -/
theorem C5_counterexample :
    consumer_shared_memory initialState = (RunResult.exit1 initialState, none) :=
  rfl

/-- C5 amended: the segment and the three semaphores are created by the
producer role, which alone uses create-if-absent semantics (`IPC_CREAT`,
`O_CREAT`); a producer run from a fresh system creates all four, while a
consumer run from a fresh system exits with an error instead of creating
them. -/
theorem C5_amended_creation :
    (∀ (msg : List Char) (depth : Nat), 1 ≤ depth →
      ∃ st', producer_shared_memory msg depth initialState =
          RunResult.ok st' ∧
        st'.shm.isSome = true ∧ st'.mutex_sem.isSome = true ∧
        st'.empty_sem.isSome = true ∧ st'.full_sem.isSome = true) ∧
    (consumer_shared_memory initialState).1 = RunResult.exit1 initialState := by
  refine ⟨?_, rfl⟩
  intro msg depth hd
  cases depth with
  | zero => exact absurd hd (by decide)
  | succ d =>
    exact ⟨{ shm := some { message := msg, is_empty := 0 }
             mutex_sem := some 1
             empty_sem := some d
             full_sem := some 1 },
           rfl, rfl, rfl, rfl, rfl⟩

/-- C5 witness: a first producer run at message "b" and depth 3 creates
all four named resources. -/
theorem C5_amended_witness :
    ∃ st', producer_shared_memory ['b'] 3 initialState = RunResult.ok st' ∧
      st'.shm.isSome = true ∧ st'.mutex_sem.isSome = true ∧
      st'.empty_sem.isSome = true ∧ st'.full_sem.isSome = true :=
  C5_amended_creation.1 ['b'] 3 (by decide)

/-- A starting state in which the shared memory segment exists but none of
the three named semaphores does. -/
def segOnlyState : SysState :=
  { shm := some { message := [], is_empty := 0 }
    mutex_sem := none
    empty_sem := none
    full_sem := none }

/-- C6 (code bug): started with the segment present but the semaphores
missing, the consumer does not take a checked NotFound error path: the
unchecked `sem_open(name, 0)` results flow into `sem_wait(SEM_FAILED)`,
which is undefined behavior, not a diagnostic with exit status 1. -/
theorem C6_unchecked_sem_open :
    consumer_shared_memory segOnlyState = (RunResult.crash segOnlyState, none) ∧
    (consumer_shared_memory segOnlyState).1 ≠ RunResult.exit1 segOnlyState := by
  decide

/-- A starting state in which the segment, `/mutex_sem` (count 1) and
`/full_sem` (count 1) exist but `/empty_sem` does not. -/
def missingEmptySemState : SysState :=
  { shm := some { message := ['m'], is_empty := 0 }
    mutex_sem := some 1
    empty_sem := none
    full_sem := some 1 }

/-- C7 (code bug): a failed `sem_open("/empty_sem", 0)` goes undetected:
the consumer completes the whole read and then performs `sem_post` on
`SEM_FAILED` (undefined behavior) instead of reporting the error and
exiting with status 1; no `sem_open`/`sem_wait`/`sem_post` result is
checked in either role. -/
theorem C7_unchecked_primitive :
    consumer_shared_memory missingEmptySemState =
      (RunResult.crash
        { shm := some { message := ['m'], is_empty := 1 }
          mutex_sem := some 1
          empty_sem := none
          full_sem := some 0 },
       some ['m']) ∧
    (consumer_shared_memory missingEmptySemState).1 ≠
      RunResult.exit1 missingEmptySemState := by
  decide

/-- A 1025-character message: longer than `MAX_MESSAGE_LENGTH`. -/
def overlongMsg : List Char := List.replicate 1025 'a'

/-- C8 (code bug): the shared-memory producer performs no truncation: for
a 1025-character message `strcpy` stores all 1025 characters in the
mailbox and writes 1026 bytes (characters plus NUL) into the 1024-byte
buffer, an out-of-bounds write rather than a truncation to the maximum. -/
theorem C8_no_truncation :
    MAX_MESSAGE_LENGTH < overlongMsg.length ∧
    producer_shared_memory overlongMsg 1 initialState =
      RunResult.ok
        { shm := some { message := overlongMsg, is_empty := 0 }
          mutex_sem := some 1
          empty_sem := some 0
          full_sem := some 1 } ∧
    MAX_MESSAGE_LENGTH < strcpyBytesWritten overlongMsg := by
  have hlen : overlongMsg.length = 1025 := by
    simp only [overlongMsg, List.length_replicate]
  refine ⟨?_, rfl, ?_⟩
  · rw [hlen]; decide
  · show MAX_MESSAGE_LENGTH < overlongMsg.length + 1
    rw [hlen]; decide

/-- An argument record whose `-m` flag is present but carries the empty
string, with every other flag valid. -/
def emptyMessageArgs : Arguments :=
  { is_producer := true
    is_consumer := false
    message := some []
    queue_depth := 1
    use_socket := false
    use_shared_memory := true
    enable_echo := false }

/-- C9 counterexample: an invocation with an empty (but present) message
text passes every validation check and reaches the shared-memory producer
instead of terminating with a usage error. -/
theorem C9_counterexample :
    main_dispatch emptyMessageArgs = MainAction.run_producer_shm ∧
    emptyMessageArgs.message = some [] := by
  decide

/-- C9 amended: the program terminates with a usage/error message and a
non-zero exit status, before any transfer, exactly when the message flag
is missing, the queue depth is missing or non-positive, producer/consumer
are not exactly one, or socket/shared-memory are not exactly one; an
empty (but present) message text is accepted. -/
theorem C9_usage_exit_iff (a : Arguments) :
    main_dispatch a = MainAction.usage_exit ↔
      (a.message = none ∨ a.queue_depth ≤ 0 ∨
        a.is_producer = a.is_consumer ∨
        (a.use_socket = true ∧ a.use_shared_memory = true) ∨
        (a.use_socket = false ∧ a.use_shared_memory = false)) := by
  rcases a with ⟨p, c, m, q, u, s, e⟩
  rcases m with _ | m <;> cases p <;> cases c <;> cases u <;> cases s <;>
    by_cases hq : q ≤ 0 <;>
    simp [main_dispatch, hq]

/-- C10 (code bug): `recv`, called with the full buffer size 1024, can
return 1024; the terminating NUL is then written at index 1024, one byte
past the end of the 1024-byte local buffer, so the write is not within
bounds for every receive result between 0 and 1024. -/
theorem C10_null_write_out_of_bounds :
    consumer_socket_recvCount 1500 = MAX_MESSAGE_LENGTH ∧
    consumer_socket_nullIndex MAX_MESSAGE_LENGTH = MAX_MESSAGE_LENGTH ∧
    ¬ consumer_socket_nullIndex MAX_MESSAGE_LENGTH < MAX_MESSAGE_LENGTH := by
  decide

end ProducerConsumer
